import Mathlib

/-!
Shallow embedding of the variant-generation / image-batch pipeline of
`src/app-claude.py` (a Streamlit single-page script).  Strings are modelled
as `List Char`; the Python string operations used by the script
(`str.strip`, `str.lower`, substring membership `in`, `str.split(':', 1)`,
`str.split('\n')`) are embedded below with their Python semantics.
-/

namespace TemplateEditor

/-- Python whitespace test used by `str.strip()` (ASCII whitespace). -/
def pyWs (c : Char) : Bool := c.isWhitespace

/-- Python `str.strip()`: drop whitespace from both ends. -/
def pyStrip (l : List Char) : List Char :=
  ((l.dropWhile pyWs).reverse.dropWhile pyWs).reverse

/-- Python `str.lower()` (ASCII case folding suffices for the markers used). -/
def pyLower (l : List Char) : List Char := l.map Char.toLower

/-- Python substring membership `needle in hay` for nonempty needles. -/
def containsSub (needle : List Char) : List Char → Bool
  | [] => needle.isEmpty
  | c :: t => needle.isPrefixOf (c :: t) || containsSub needle t

/-- Python `line.split(':', 1)[-1]`: the text after the first colon,
or the whole line when it has no colon. -/
def afterFirstColon (l : List Char) : List Char :=
  if l.contains ':' then (l.dropWhile (fun c => c != ':')).tail else l

/-- Python `text.split('\n')`. -/
def splitOnNl : List Char → List (List Char)
  | [] => [[]]
  | c :: t =>
    if c = '\n' then [] :: splitOnNl t
    else
      match splitOnNl t with
      | [] => [[c]]
      | h :: r => (c :: h) :: r

/-- `[line.strip() for line in text.split('\n') if line.strip()]`
(src/app-claude.py line 64). -/
def cleanLines (text : List Char) : List (List Char) :=
  ((splitOnNl text).map pyStrip).filter (fun l => !l.isEmpty)

/-- The candidate/committed couple dictionary: keys `layer1` (header text)
and `layer2` (CTA text), each possibly absent, as in the Python dict
`current_couple`. -/
structure Couple where
  layer1 : Option (List Char)
  layer2 : Option (List Char)
deriving DecidableEq

/-- `'Header:' in line or 'header:' in line.lower()` (line 71). -/
def lineIsHeader (line : List Char) : Bool :=
  containsSub ("Header:".toList) line || containsSub ("header:".toList) (pyLower line)

/-- `'CTA:' in line or 'cta:' in line.lower()` (line 74). -/
def lineIsCta (line : List Char) : Bool :=
  containsSub ("CTA:".toList) line || containsSub ("cta:".toList) (pyLower line)

/-- Loop state of the couples-extraction loop: the committed couples and the
current candidate dict. -/
structure ParseState where
  couples : List Couple
  cur : Couple
deriving DecidableEq

/-- One iteration of the couples-extraction loop (src/app-claude.py
lines 70-79): a header line sets `layer1` of the candidate; otherwise a CTA
line sets `layer2` and, when `layer1` is already present, commits a copy of
the candidate and clears it. -/
def coupleStep (s : ParseState) (line : List Char) : ParseState :=
  if lineIsHeader line then
    { s with cur := { s.cur with layer1 := some (pyStrip (afterFirstColon line)) } }
  else if lineIsCta line then
    let t := pyStrip (afterFirstColon line)
    let cur := { s.cur with layer2 := some t }
    match cur.layer1 with
    | some _ => { couples := s.couples ++ [cur], cur := ⟨none, none⟩ }
    | none => { s with cur := cur }
  else s

/-- The whole extraction loop over the cleaned lines (lines 67-79). -/
def extractCouples (lines : List (List Char)) : List Couple :=
  (lines.foldl coupleStep ⟨[], ⟨none, none⟩⟩).couples

/-- Full multi-field parse of the completion text:
clean lines, extract couples, truncate with `couples[:10]` (line 82). -/
def parseCouples (text : List Char) : List Couple :=
  (extractCouples (cleanLines text)).take 10

/-- One successfully composited image as stored in `generated_images`
(lines 167-172): the couple's two field texts and the raw response bytes
(the decoded PIL image is determined by the bytes and not modelled
separately). -/
structure GeneratedImage where
  layer1 : List Char
  layer2 : List Char
  bytes : List Char
deriving DecidableEq

/-- The relevant slots of `st.session_state`: `couples`,
`selected_couples`, `generated_images`.  `none` models an absent key. -/
structure SessionState where
  couples : Option (List Couple)
  selected : List Nat
  generatedImages : Option (List GeneratedImage)
deriving DecidableEq

/-- Fresh session: none of the three keys has been assigned. -/
def initState : SessionState := ⟨none, [], none⟩

/-- The user-visible outcome message of the variant-generation handler. -/
inductive GenMessage where
  | apiKeyMissing
  | genError (msg : List Char)
  | success (n : Nat) (warned : Bool)
deriving DecidableEq

/-- The variant-generation button handler (lines 36-94).  `result` is the
completion-service call: `Except.error e` models the `except` branch (the
call raised), `Except.ok text` a returned completion text.  On success the
parsed couples are stored and `selected_couples` is reset (lines 88-89);
the message carries the under-generation warning flag (lines 84-85) and
the success banner count (line 91).  On an exception the session state is
untouched and a single error message is emitted (line 94). -/
def generateVariants (hasWriterKey : Bool)
    (result : Except (List Char) (List Char)) (s : SessionState) :
    SessionState × GenMessage :=
  if !hasWriterKey then (s, .apiKeyMissing)
  else
    match result with
    | .error e => (s, .genError e)
    | .ok text =>
      let cs := parseCouples text
      ({ s with couples := some cs, selected := [] },
       .success cs.length (decide (cs.length < 10)))

/-- What the remote image-edit interaction does for one request:
the `requests.post` call raises (`transportError`), or returns a response
with a status code, a body, and — for the subsequent `Image.open` — whether
the body decodes as a well-formed image. -/
inductive RemoteOutcome where
  | transportError (msg : List Char)
  | response (status : Nat) (content : List Char) (decodeOk : Bool)
deriving DecidableEq

/-- One per-item failure record: the non-200 branch reports the status and
body (lines 174-175); the `except` branch reports the exception text
(line 178). -/
inductive ItemFailure where
  | badStatus (coupleIdx : Nat) (status : Nat) (body : List Char)
  | exceptionMsg (coupleIdx : Nat) (msg : List Char)
deriving DecidableEq

/-- The exception text produced when `Image.open` rejects the body. -/
def decodeErrText : List Char := "cannot identify image file".toList

/-- One iteration of the image-generation loop (lines 142-180) for the
`i`-th selected index `idx`: read the couple's texts with `.get(_, '')`,
issue the request, and either append a `GeneratedImage` or append one
failure record.  `Image.open` failing raises inside the `try`, so a
non-decoding 200 body is a per-item failure, not a batch abort.
In the source `st.session_state['couples'][idx]` would raise `IndexError`
for an out-of-range `idx`; the embedding totalises it with a default
empty candidate, and every claim only exercises in-range indices. -/
def batchStep (couples : List Couple) (oracle : Nat → RemoteOutcome)
    (acc : List GeneratedImage × List ItemFailure) (p : Nat × Nat) :
    List GeneratedImage × List ItemFailure :=
  let couple := couples.getD p.2 ⟨none, none⟩
  let l1 := couple.layer1.getD []
  let l2 := couple.layer2.getD []
  match oracle p.1 with
  | .transportError m => (acc.1, acc.2 ++ [.exceptionMsg p.2 m])
  | .response status content dOk =>
    if status = 200 then
      if dOk then (acc.1 ++ [⟨l1, l2, content⟩], acc.2)
      else (acc.1, acc.2 ++ [.exceptionMsg p.2 decodeErrText])
    else (acc.1, acc.2 ++ [.badStatus p.2 status content])

/-- The whole sequential image-generation loop
(`for i, idx in enumerate(selected_indices)`, lines 140-180): returns the
collected `generated_images` and the per-item failure reports, in order. -/
def runBatch (couples : List Couple) (selected : List Nat)
    (oracle : Nat → RemoteOutcome) :
    List GeneratedImage × List ItemFailure :=
  selected.enum.foldl (batchStep couples oracle) ([], [])

/-- Whether one item's remote interaction fails (raises, non-200 status,
or a 200 body that does not decode as an image). -/
def failsOutcome : RemoteOutcome → Bool
  | .transportError _ => true
  | .response status _ dOk => decide (status ≠ 200) || !dOk

/-- Outcome of the generate-images button handler (lines 127-186).
`ran` carries the collected images, the failure reports, and the number of
image-edit POST requests the loop issued (one per iteration). -/
inductive BatchOutcome where
  | photoroomKeyMissing
  | templateMissing
  | emptySelection
  | ran (images : List GeneratedImage) (failures : List ItemFailure)
      (requests : Nat)
deriving DecidableEq

/-- The generate-images button handler guards (lines 128-133): missing
key, missing template id, then empty selection, before the loop runs. -/
def batchHandler (hasPhotoroomKey : Bool) (templateId : List Char)
    (couples : List Couple) (selected : List Nat)
    (oracle : Nat → RemoteOutcome) : BatchOutcome :=
  if !hasPhotoroomKey then .photoroomKeyMissing
  else if templateId.isEmpty then .templateMissing
  else if selected.length = 0 then .emptySelection
  else
    let r := runBatch couples selected oracle
    .ran r.1 r.2 selected.length

/-- Number of image-edit requests issued by a handler outcome: none on a
rejected action. -/
def requestCount : BatchOutcome → Nat
  | .ran _ _ r => r
  | _ => 0

/-- User-triggered actions that touch the modelled session state. -/
inductive Event where
  | generate (hasKey : Bool) (result : Except (List Char) (List Char))
  | select (checks : Nat → Bool)
  | runImages (hasKey : Bool) (templateId : List Char)
      (oracle : Nat → RemoteOutcome)

/-- One UI round: `generate` is the variant-generation handler;
`select` is the checkbox pass (lines 102-123), which rebuilds
`selected_couples` from the checkboxes over `enumerate(couples)` and only
renders when `couples` is present and nonempty (line 97); `runImages`
stores the batch result in `generated_images` (line 186) when the handler
actually ran. -/
def stepEvent (s : SessionState) : Event → SessionState
  | .generate hasKey result => (generateVariants hasKey result s).1
  | .select checks =>
    match s.couples with
    | some cs =>
      if cs.isEmpty then s
      else { s with selected := (List.range cs.length).filter checks }
    | none => s
  | .runImages hasKey templateId oracle =>
    match s.couples with
    | some cs =>
      if cs.isEmpty then s
      else
        match batchHandler hasKey templateId cs s.selected oracle with
        | .ran images _ _ => { s with generatedImages := some images }
        | _ => s
    | none => s

/-- Modelled from the spec: the single-field ("title" mode) parser of the
repository's other duplicate scripts, which are not present under `src/`.
Per the spec, a leading enumeration marker `<digits>.` or `<digits>)`
(longest digit prefix, else no stripping) is removed from each non-empty
trimmed line and the remainder is the title. -/
def stripEnumMarker (l : List Char) : List Char :=
  let ds := l.takeWhile Char.isDigit
  if ds.isEmpty then l
  else
    match l.drop ds.length with
    | m :: r => if m = '.' ∨ m = ')' then pyStrip r else l
    | [] => l

/-- Modelled from the spec: single-field mode splits the input into
non-empty trimmed lines, strips the enumeration marker of each, and
truncates to the first 10 titles. -/
def parseSingle (text : List Char) : List (List Char) :=
  ((cleanLines text).map stripEnumMarker).take 10

/-- Per enumerated selected item, the image the loop is expected to
collect when the item succeeds, `none` when it fails. -/
def imageOf (couples : List Couple) (oracle : Nat → RemoteOutcome)
    (p : Nat × Nat) : Option GeneratedImage :=
  let couple := couples.getD p.2 ⟨none, none⟩
  match oracle p.1 with
  | .transportError _ => none
  | .response status content dOk =>
    if status = 200 then
      if dOk then some ⟨couple.layer1.getD [], couple.layer2.getD [], content⟩
      else none
    else none

/-- Per enumerated selected item, the failure record the loop is expected
to report when the item fails, `none` when it succeeds. -/
def failRecordOf (oracle : Nat → RemoteOutcome) (p : Nat × Nat) :
    Option ItemFailure :=
  match oracle p.1 with
  | .transportError m => some (.exceptionMsg p.2 m)
  | .response status content dOk =>
    if status = 200 then
      if dOk then none else some (.exceptionMsg p.2 decodeErrText)
    else some (.badStatus p.2 status content)

/-- Refinement reference for the batch-driver ordering guarantee, written
from the spec's words: the expected images of the successful items of the
enumerated selection, kept in input-selection order. -/
def specOrderedImages (couples : List Couple) (selected : List Nat)
    (oracle : Nat → RemoteOutcome) : List GeneratedImage :=
  selected.enum.filterMap (imageOf couples oracle)

/-- The line stream of an alternating Header/CTA pair sequence: for each
pair, its header line then its CTA line. -/
def pairLines : List (List Char × List Char) → List (List Char)
  | [] => []
  | p :: ps => p.1 :: p.2 :: pairLines ps

/-- A well-formed committed couple: both fields present and already
whitespace-stripped. -/
def goodCouple (c : Couple) : Prop :=
  (∃ h, c.layer1 = some h ∧ pyStrip h = h) ∧
    (∃ t, c.layer2 = some t ∧ pyStrip t = t)

/-- The selection invariant: every selected index is in range of the
current couples list (the absent key counts as the empty list). -/
def selInv (s : SessionState) : Prop :=
  ∀ i ∈ s.selected, i < (s.couples.getD []).length

/-- A concrete three-couple list used to instantiate general theorems. -/
def sampleCouples : List Couple :=
  [⟨some ("H1".toList), some ("C1".toList)⟩,
   ⟨some ("H2".toList), some ("C2".toList)⟩,
   ⟨some ("H3".toList), some ("C3".toList)⟩]

/-- A concrete remote behaviour: the second request returns status 500,
the others succeed with decodable bytes. -/
def sampleOracle : Nat → RemoteOutcome := fun i =>
  if i = 1 then .response 500 ("err".toList) true
  else .response 200 ("img".toList) true

/-! ### Helper lemmas -/

theorem dropWhile_dropWhile_self {α : Type} (p : α → Bool) (l : List α) :
    (l.dropWhile p).dropWhile p = l.dropWhile p := by
  induction l with
  | nil => rfl
  | cons a t ih =>
    by_cases h : p a
    · simp [List.dropWhile_cons, h, ih]
    · simp [List.dropWhile_cons, h]

theorem head?_dropWhile_false {α : Type} (p : α → Bool) (l : List α) (c : α)
    (h : (l.dropWhile p).head? = some c) : p c = false := by
  have := List.head?_dropWhile_not p l
  rw [h] at this
  exact this

theorem getLast?_dropWhile {α : Type} (p : α → Bool) (l : List α)
    (h : l.dropWhile p ≠ []) : (l.dropWhile p).getLast? = l.getLast? := by
  induction l with
  | nil => simp at h
  | cons a t ih =>
    by_cases hp : p a
    · rw [List.dropWhile_cons_of_pos hp] at h ⊢
      rcases ht : t with _ | ⟨b, t2⟩
      · rw [ht] at h; simp at h
      · rw [← ht]
        rw [ih h, ht, List.getLast?_cons_cons]
    · rw [List.dropWhile_cons_of_neg hp]

theorem dropWhile_pyStrip (l : List Char) :
    (pyStrip l).dropWhile pyWs = pyStrip l := by
  rcases hps : pyStrip l with _ | ⟨c, rest⟩
  · simp
  · have hhead : (pyStrip l).head? = some c := by rw [hps]; rfl
    have hm' : (l.dropWhile pyWs).reverse.dropWhile pyWs ≠ [] := by
      intro he
      rw [pyStrip, he] at hps
      simp at hps
    have hr : l.dropWhile pyWs ≠ [] := by
      intro he
      rw [he] at hm'
      simp at hm'
    have hchain : (pyStrip l).head? = (l.dropWhile pyWs).head? := by
      rw [pyStrip, List.head?_reverse, getLast?_dropWhile pyWs _ hm',
        List.getLast?_reverse]
    rcases hh : (l.dropWhile pyWs).head? with _ | c2
    · rcases hr0 : l.dropWhile pyWs with _ | ⟨x, xs⟩
      · exact absurd hr0 hr
      · rw [hr0] at hh; simp at hh
    · have hc2 : pyWs c2 = false := head?_dropWhile_false pyWs l c2 hh
      have hcc : c = c2 := by
        rw [hhead, hh] at hchain
        exact Option.some.inj hchain
      rw [List.dropWhile_cons_of_neg]
      rw [hcc]
      simp [hc2]

theorem pyStrip_idem (l : List Char) : pyStrip (pyStrip l) = pyStrip l := by
  conv_lhs => rw [pyStrip]
  rw [dropWhile_pyStrip]
  have h1 : (pyStrip l).reverse = (l.dropWhile pyWs).reverse.dropWhile pyWs := by
    rw [pyStrip, List.reverse_reverse]
  rw [h1, dropWhile_dropWhile_self, ← pyStrip]

theorem countP_not_add_countP {α : Type} (q : α → Bool) (l : List α) :
    l.countP (fun a => !q a) + l.countP q = l.length := by
  induction l with
  | nil => simp
  | cons a t ih =>
    rcases h : q a with _ | _ <;>
      simp [List.countP_cons, h] <;> omega

theorem imageOf_isSome (couples : List Couple) (oracle : Nat → RemoteOutcome)
    (p : Nat × Nat) :
    (imageOf couples oracle p).isSome = !failsOutcome (oracle p.1) := by
  rcases h : oracle p.1 with m | ⟨status, content, dOk⟩
  · simp [imageOf, failsOutcome, h]
  · by_cases hs : status = 200
    · cases dOk <;> simp [imageOf, failsOutcome, h, hs]
    · simp [imageOf, failsOutcome, h, hs]

theorem failRecordOf_isSome (oracle : Nat → RemoteOutcome) (p : Nat × Nat) :
    (failRecordOf oracle p).isSome = failsOutcome (oracle p.1) := by
  rcases h : oracle p.1 with m | ⟨status, content, dOk⟩
  · simp [failRecordOf, failsOutcome, h]
  · by_cases hs : status = 200
    · cases dOk <;> simp [failRecordOf, failsOutcome, h, hs]
    · simp [failRecordOf, failsOutcome, h, hs]

theorem foldl_batchStep_eq (couples : List Couple) (oracle : Nat → RemoteOutcome) :
    ∀ (ps : List (Nat × Nat)) (acc : List GeneratedImage × List ItemFailure),
    ps.foldl (batchStep couples oracle) acc =
      (acc.1 ++ ps.filterMap (imageOf couples oracle),
       acc.2 ++ ps.filterMap (failRecordOf oracle)) := by
  intro ps
  induction ps with
  | nil => intro acc; simp
  | cons p ps ih =>
    intro acc
    rw [List.foldl_cons, ih]
    rcases h : oracle p.1 with m | ⟨status, content, dOk⟩
    · simp [batchStep, imageOf, failRecordOf, h]
    · by_cases hs : status = 200
      · cases dOk <;> simp [batchStep, imageOf, failRecordOf, h, hs]
      · simp [batchStep, imageOf, failRecordOf, h, hs]

theorem foldl_pairLines :
    ∀ (ps : List (List Char × List Char)) (acc : List Couple),
    (∀ p ∈ ps, lineIsHeader p.1 = true ∧ lineIsHeader p.2 = false ∧
        lineIsCta p.2 = true) →
    (pairLines ps).foldl coupleStep ⟨acc, ⟨none, none⟩⟩ =
      ⟨acc ++ ps.map (fun p =>
          ⟨some (pyStrip (afterFirstColon p.1)),
           some (pyStrip (afterFirstColon p.2))⟩),
       ⟨none, none⟩⟩ := by
  intro ps
  induction ps with
  | nil => intro acc _; simp [pairLines]
  | cons p ps ih =>
    intro acc hwf
    obtain ⟨h1, h2, h3⟩ := hwf p (by simp)
    rw [pairLines, List.foldl_cons, List.foldl_cons]
    have e1 : coupleStep ⟨acc, ⟨none, none⟩⟩ p.1 =
        ⟨acc, ⟨some (pyStrip (afterFirstColon p.1)), none⟩⟩ := by
      simp [coupleStep, h1]
    have e2 : coupleStep ⟨acc, ⟨some (pyStrip (afterFirstColon p.1)), none⟩⟩ p.2 =
        ⟨acc ++ [⟨some (pyStrip (afterFirstColon p.1)),
                 some (pyStrip (afterFirstColon p.2))⟩],
         ⟨none, none⟩⟩ := by
      simp [coupleStep, h2, h3]
    rw [e1, e2, ih _ (fun q hq => hwf q (by simp [hq]))]
    simp

theorem coupleStep_header (s : ParseState) (line : List Char)
    (h : lineIsHeader line = true) :
    coupleStep s line =
      { s with cur := { s.cur with
          layer1 := some (pyStrip (afterFirstColon line)) } } := by
  simp [coupleStep, h]

theorem coupleStep_cta_commit (s : ParseState) (line : List Char)
    (hdr : List Char) (h1 : lineIsHeader line = false)
    (h2 : lineIsCta line = true) (hl : s.cur.layer1 = some hdr) :
    coupleStep s line =
      ⟨s.couples ++ [⟨some hdr, some (pyStrip (afterFirstColon line))⟩],
       ⟨none, none⟩⟩ := by
  simp [coupleStep, h1, h2, hl]

theorem coupleStep_cta_nocommit (s : ParseState) (line : List Char)
    (h1 : lineIsHeader line = false) (h2 : lineIsCta line = true)
    (hl : s.cur.layer1 = none) :
    coupleStep s line =
      { s with cur := ⟨none, some (pyStrip (afterFirstColon line))⟩ } := by
  simp [coupleStep, h1, h2, hl]

theorem coupleStep_other (s : ParseState) (line : List Char)
    (h1 : lineIsHeader line = false) (h2 : lineIsCta line = false) :
    coupleStep s line = s := by
  simp [coupleStep, h1, h2]

theorem foldl_coupleStep_inv :
    ∀ (lines : List (List Char)) (s : ParseState),
    (∀ c ∈ s.couples, goodCouple c) →
    (∀ h, s.cur.layer1 = some h → pyStrip h = h) →
    ∀ c ∈ (lines.foldl coupleStep s).couples, goodCouple c := by
  intro lines
  induction lines with
  | nil => intro s hc _; simpa using hc
  | cons line lines ih =>
    intro s hc hcur
    rw [List.foldl_cons]
    by_cases h1 : lineIsHeader line
    · rw [coupleStep_header s line h1]
      apply ih
      · simpa using hc
      · intro h hh
        simp only [Option.some.injEq] at hh
        rw [← hh]
        exact pyStrip_idem _
    · by_cases h2 : lineIsCta line
      · rcases hl : s.cur.layer1 with _ | hdr
        · rw [coupleStep_cta_nocommit s line (by simpa using h1) h2 hl]
          apply ih
          · simpa using hc
          · intro h hh; simp at hh
        · rw [coupleStep_cta_commit s line hdr (by simpa using h1) h2 hl]
          apply ih
          · intro c hcm
            simp only [List.mem_append, List.mem_singleton] at hcm
            rcases hcm with hcm | hcm
            · exact hc c hcm
            · rw [hcm]
              exact ⟨⟨hdr, rfl, hcur hdr hl⟩,
                ⟨pyStrip (afterFirstColon line), rfl, pyStrip_idem _⟩⟩
          · intro h hh; simp at hh
      · rw [coupleStep_other s line (by simpa using h1) (by simpa using h2)]
        exact ih s hc hcur

theorem stepEvent_selInv (s : SessionState) (e : Event) (hs : selInv s) :
    selInv (stepEvent s e) := by
  cases e with
  | generate hk res =>
    cases hk
    · simpa [stepEvent, generateVariants] using hs
    · cases res with
      | error e => simpa [stepEvent, generateVariants] using hs
      | ok text =>
        intro i hi
        simp [stepEvent, generateVariants] at hi
  | select checks =>
    rcases hcs : s.couples with _ | cs
    · simpa [stepEvent, hcs] using hs
    · by_cases he : cs.isEmpty
      · simpa [stepEvent, hcs, he] using hs
      · intro i hi
        simp only [stepEvent, hcs, he, Bool.false_eq_true, if_false] at hi ⊢
        simp only [List.mem_filter, List.mem_range] at hi
        simpa using hi.1
  | runImages hk tid oracle =>
    have hpres : (stepEvent s (.runImages hk tid oracle)).selected = s.selected ∧
        (stepEvent s (.runImages hk tid oracle)).couples = s.couples := by
      simp only [stepEvent]
      split
      · split
        · exact ⟨rfl, rfl⟩
        · split <;> exact ⟨rfl, rfl⟩
      · exact ⟨rfl, rfl⟩
    intro i hi
    rw [hpres.1] at hi
    rw [hpres.2]
    exact hs i hi

theorem foldl_stepEvent_selInv :
    ∀ (evs : List Event) (s : SessionState), selInv s →
    selInv (evs.foldl stepEvent s) := by
  intro evs
  induction evs with
  | nil => intro s hs; simpa using hs
  | cons e evs ih =>
    intro s hs
    rw [List.foldl_cons]
    exact ih _ (stepEvent_selInv s e hs)

theorem takeWhile_append_all (p : Char → Bool) :
    ∀ (ds : List Char) (m : Char) (r : List Char),
    (∀ c ∈ ds, p c = true) → p m = false →
    (ds ++ m :: r).takeWhile p = ds := by
  intro ds
  induction ds with
  | nil => intro m r _ hm; simp [List.takeWhile_cons, hm]
  | cons d ds ih =>
    intro m r hall hm
    have hd : p d = true := hall d (by simp)
    simp only [List.cons_append, List.takeWhile_cons, hd, if_true]
    rw [ih m r (fun c hc => hall c (by simp [hc])) hm]

theorem stripEnumMarker_marker (ds r : List Char) (m : Char) (hne : ds ≠ [])
    (hall : ∀ c ∈ ds, c.isDigit = true) (hm : m.isDigit = false) :
    stripEnumMarker (ds ++ m :: r) =
      if m = '.' ∨ m = ')' then pyStrip r else ds ++ m :: r := by
  have ht : (ds ++ m :: r).takeWhile Char.isDigit = ds :=
    takeWhile_append_all _ ds m r hall hm
  have hd : (ds ++ m :: r).drop ds.length = m :: r := List.drop_left ds _
  have hne' : ds.isEmpty = false := by
    cases ds
    · exact absurd rfl hne
    · rfl
  simp only [stripEnumMarker, ht, hne', Bool.false_eq_true, if_false, hd]

/-! ### Claim theorems -/

/-- C3 counterexample: generating a new variant sequence while a previous
image batch is cached stores the new sequence and leaves
`generated_images` holding the stale batch — it is not cleared. -/
theorem C3_counterexample :
    (generateVariants true (.ok ("Header: H\nCTA: C".toList))
        ⟨some [⟨some ("A".toList), some ("B".toList)⟩], [0],
         some [⟨"A".toList, "B".toList, "img".toList⟩]⟩).1.generatedImages =
      some [⟨"A".toList, "B".toList, "img".toList⟩] ∧
    (generateVariants true (.ok ("Header: H\nCTA: C".toList))
        ⟨some [⟨some ("A".toList), some ("B".toList)⟩], [0],
         some [⟨"A".toList, "B".toList, "img".toList⟩]⟩).1.couples =
      some [⟨some ("H".toList), some ("C".toList)⟩] := by
  decide

/-- C3 (amended): storing a newly parsed variant sequence resets the
Selection Tracker to empty and replaces the couples, but leaves the cached
image batch `generated_images` untouched; stale images persist until the
next batch run overwrites them. -/
theorem C3_store_variants_amended (s : SessionState) (text : List Char) :
    (generateVariants true (.ok text) s).1.selected = [] ∧
    (generateVariants true (.ok text) s).1.couples = some (parseCouples text) ∧
    (generateVariants true (.ok text) s).1.generatedImages =
      s.generatedImages := by
  refine ⟨?_, ?_, ?_⟩ <;> simp [generateVariants]

/-- C4: the multi-field parser yields at most 10 couples; when fewer than
10 are extracted the result is kept as-is (no padding) and the handler's
message carries the under-generation warning flag. -/
theorem C4_parser_capped_at_ten (text : List Char) :
    (parseCouples text).length ≤ 10 ∧
    ((extractCouples (cleanLines text)).length < 10 →
      parseCouples text = extractCouples (cleanLines text)) ∧
    ∀ s : SessionState,
      (generateVariants true (.ok text) s).2 =
        GenMessage.success (parseCouples text).length
          (decide ((parseCouples text).length < 10)) := by
  refine ⟨?_, ?_, ?_⟩
  · simp only [parseCouples, List.length_take]
    exact Nat.min_le_left _ _
  · intro h
    simp only [parseCouples]
    exact List.take_of_length_le (Nat.le_of_lt h)
  · intro s
    simp [generateVariants]

/-- Witness for C4 at a two-line completion text producing one couple. -/
theorem C4_parser_capped_at_ten_witness :
    (parseCouples ("Header: H\nCTA: C".toList)).length ≤ 10 ∧
    (extractCouples (cleanLines ("Header: H\nCTA: C".toList))).length < 10 ∧
    parseCouples ("Header: H\nCTA: C".toList) =
      extractCouples (cleanLines ("Header: H\nCTA: C".toList)) :=
  ⟨(C4_parser_capped_at_ten _).1, by decide,
   (C4_parser_capped_at_ten _).2.1 (by decide)⟩

/-- C5: a batch run with zero selected variants is rejected by the
empty-selection guard (given the key and template id are present), and no
image-edit request is ever issued for an empty selection under any
configuration. -/
theorem C5_empty_selection_rejected (hk : Bool) (templateId : List Char)
    (couples : List Couple) (oracle : Nat → RemoteOutcome)
    (hkey : hk = true) (htid : templateId.isEmpty = false) :
    batchHandler hk templateId couples [] oracle =
      BatchOutcome.emptySelection ∧
    ∀ (hk2 : Bool) (tid2 : List Char),
      requestCount (batchHandler hk2 tid2 couples [] oracle) = 0 := by
  constructor
  · simp [batchHandler, hkey, htid]
  · intro hk2 tid2
    cases hk2
    · simp [batchHandler, requestCount]
    · by_cases h2 : tid2.isEmpty <;>
        simp [batchHandler, requestCount, h2]

/-- Witness for C5 at a concrete configuration. -/
theorem C5_empty_selection_rejected_witness :
    batchHandler true ("t".toList) []
      [] (fun _ => RemoteOutcome.response 200 [] true) =
      BatchOutcome.emptySelection ∧
    requestCount (batchHandler false ("t".toList) []
      [] (fun _ => RemoteOutcome.response 200 [] true)) = 0 :=
  ⟨(C5_empty_selection_rejected true ("t".toList) []
      (fun _ => RemoteOutcome.response 200 [] true) rfl (by decide)).1,
   (C5_empty_selection_rejected true ("t".toList) []
      (fun _ => RemoteOutcome.response 200 [] true) rfl (by decide)).2
     false ("t".toList)⟩

/-- C6 counterexample: a completion text with no Header/CTA markers does
not leave the variant sequence unset — the handler stores the empty
sequence and still reports a success banner (with a warning flag). -/
theorem C6_counterexample :
    (generateVariants true (.ok ("untagged line".toList)) initState).1.couples =
      some [] ∧
    (generateVariants true (.ok ("untagged line".toList)) initState).1.couples ≠
      none ∧
    (generateVariants true (.ok ("untagged line".toList)) initState).2 =
      GenMessage.success 0 true := by
  decide

/-- C6 (amended): if the completion call raises, a single error message is
reported and the session state — in particular the variant sequence — is
left untouched; but a call that returns text parsing to zero couples
stores the empty sequence and reports an under-generation warning together
with a success banner. -/
theorem C6_generation_failure_amended (s : SessionState) (e text : List Char)
    (hempty : parseCouples text = []) :
    generateVariants true (.error e) s = (s, GenMessage.genError e) ∧
    (generateVariants true (.ok text) s).1.couples = some [] ∧
    (generateVariants true (.ok text) s).2 = GenMessage.success 0 true := by
  refine ⟨by simp [generateVariants], ?_, ?_⟩ <;>
    simp [generateVariants, hempty]

/-- Witness for C6 at a markerless text and a concrete error. -/
theorem C6_generation_failure_amended_witness :
    parseCouples ("x".toList) = [] ∧
    generateVariants true (.error ("boom".toList)) initState =
      (initState, GenMessage.genError ("boom".toList)) :=
  ⟨by decide,
   (C6_generation_failure_amended initState ("boom".toList) ("x".toList)
      (by decide)).1⟩

/-- C7 counterexample: on the line `"note: Header: X"` the candidate's
header is set to the text after the line's first colon (`"Header: X"`),
not to the text after the `Header:` marker (`"X"`). -/
theorem C7_counterexample :
    (coupleStep ⟨[], ⟨none, none⟩⟩ ("note: Header: X".toList)).cur.layer1 =
      some ("Header: X".toList) ∧
    (coupleStep ⟨[], ⟨none, none⟩⟩ ("note: Header: X".toList)).cur.layer1 ≠
      some ("X".toList) := by
  decide

/-- C7 (amended): a line containing a case-insensitive `Header:` marker
sets the candidate's header to the stripped text after the line's FIRST
colon (which equals the text after the marker only when no colon precedes
it); symmetrically a CTA line records the stripped text after the first
colon in the candidate's `cta` field, or in the just-committed couple when
the line triggers a commit. -/
theorem C7_marker_extraction_amended (s : ParseState) (line : List Char) :
    (lineIsHeader line = true →
      (coupleStep s line).cur.layer1 =
        some (pyStrip (afterFirstColon line))) ∧
    (lineIsHeader line = false → lineIsCta line = true →
      (coupleStep s line).cur.layer2 =
          some (pyStrip (afterFirstColon line)) ∨
        (coupleStep s line).couples.getLast? =
          some ⟨s.cur.layer1, some (pyStrip (afterFirstColon line))⟩) := by
  constructor
  · intro h
    rw [coupleStep_header s line h]
  · intro h1 h2
    rcases hl : s.cur.layer1 with _ | hdr
    · left
      rw [coupleStep_cta_nocommit s line h1 h2 hl]
    · right
      rw [coupleStep_cta_commit s line hdr h1 h2 hl]
      exact List.getLast?_concat _

/-- Witness for C7 (amended) on a concrete header line. -/
theorem C7_marker_extraction_amended_witness :
    (coupleStep ⟨[], ⟨none, none⟩⟩ ("1. Header: SHOP".toList)).cur.layer1 =
      some (pyStrip (afterFirstColon ("1. Header: SHOP".toList))) :=
  (C7_marker_extraction_amended ⟨[], ⟨none, none⟩⟩ _).1 (by decide)

/-- C2: a couple is committed exactly at the moment a CTA line is seen
while the candidate's header is already set (the count grows by one then
and only then); a CTA line with no header for the current candidate never
commits; and an alternating Header/CTA stream of N pairs yields exactly
those N couples in input order, which the 10-truncation keeps whenever
N ≤ 10. -/
theorem C2_commit_discipline :
    (∀ (s : ParseState) (line : List Char),
      (coupleStep s line).couples.length =
        s.couples.length +
          (if !lineIsHeader line && lineIsCta line && s.cur.layer1.isSome
           then 1 else 0)) ∧
    (∀ (s : ParseState) (line : List Char),
      lineIsHeader line = false → lineIsCta line = true →
      s.cur.layer1 = none →
      (coupleStep s line).couples = s.couples) ∧
    (∀ ps : List (List Char × List Char),
      (∀ p ∈ ps, lineIsHeader p.1 = true ∧ lineIsHeader p.2 = false ∧
          lineIsCta p.2 = true) →
      extractCouples (pairLines ps) =
        ps.map (fun p => ⟨some (pyStrip (afterFirstColon p.1)),
                          some (pyStrip (afterFirstColon p.2))⟩) ∧
      (ps.length ≤ 10 →
        (extractCouples (pairLines ps)).take 10 =
          ps.map (fun p => ⟨some (pyStrip (afterFirstColon p.1)),
                            some (pyStrip (afterFirstColon p.2))⟩))) := by
  refine ⟨?_, ?_, ?_⟩
  · intro s line
    by_cases h1 : lineIsHeader line
    · rw [coupleStep_header s line h1]
      simp [h1]
    · have h1' : lineIsHeader line = false := by simpa using h1
      by_cases h2 : lineIsCta line
      · rcases hl : s.cur.layer1 with _ | hdr
        · rw [coupleStep_cta_nocommit s line h1' h2 hl]
          simp [h1', h2]
        · rw [coupleStep_cta_commit s line hdr h1' h2 hl]
          simp [h1', h2]
      · have h2' : lineIsCta line = false := by simpa using h2
        rw [coupleStep_other s line h1' h2']
        simp [h1', h2']
  · intro s line h1 h2 hl
    rw [coupleStep_cta_nocommit s line h1 h2 hl]
  · intro ps hwf
    have hfold := foldl_pairLines ps [] hwf
    have he : extractCouples (pairLines ps) =
        ps.map (fun p => ⟨some (pyStrip (afterFirstColon p.1)),
                          some (pyStrip (afterFirstColon p.2))⟩) := by
      unfold extractCouples
      rw [hfold]
      simp
    refine ⟨he, fun hle => ?_⟩
    rw [he]
    exact List.take_of_length_le (by simpa using hle)

/-- Witness for C2 on the spec's example pair. -/
theorem C2_commit_discipline_witness :
    extractCouples (pairLines
      [("1. Header: SHOP NOW".toList, "CTA: Browse Today".toList)]) =
      [⟨some ("SHOP NOW".toList), some ("Browse Today".toList)⟩] := by
  have h := (C2_commit_discipline.2.2
    [("1. Header: SHOP NOW".toList, "CTA: Browse Today".toList)]
    (by decide)).1
  rw [h]
  decide

/-- C8: generating a new variant sequence resets the selection to empty,
and along any sequence of user actions from a fresh session every
selected index stays within the current variant sequence's index range. -/
theorem C8_selection_reset_and_in_range :
    (∀ (s : SessionState) (text : List Char),
      (generateVariants true (.ok text) s).1.selected = []) ∧
    (∀ evs : List Event, selInv (evs.foldl stepEvent initState)) := by
  constructor
  · intro s text
    simp [generateVariants]
  · intro evs
    apply foldl_stepEvent_selInv
    intro i hi
    simp [initState] at hi

/-- Witness for C8: after generating one couple and selecting it, index 0
is selected and is in range. -/
theorem C8_selection_reset_and_in_range_witness :
    (generateVariants true (.ok ("Header: H\nCTA: C".toList))
        initState).1.selected = [] ∧
    0 < ((([Event.generate true (.ok ("Header: H\nCTA: C".toList)),
            Event.select (fun _ => true)]).foldl stepEvent
        initState).couples.getD []).length :=
  ⟨C8_selection_reset_and_in_range.1 initState _,
   C8_selection_reset_and_in_range.2
     [Event.generate true (.ok ("Header: H\nCTA: C".toList)),
      Event.select (fun _ => true)] 0 (by decide)⟩

/-- C10: every couple committed by the multi-field parser has both fields
present (so the `.get` fallback defaults of the batch driver and renderer
are never exercised for it) and both field values are
whitespace-stripped. -/
theorem C10_committed_couples_complete (text : List Char) (c : Couple)
    (hc : c ∈ parseCouples text) : goodCouple c := by
  have hmem : c ∈ extractCouples (cleanLines text) :=
    List.take_subset 10 _ hc
  exact foldl_coupleStep_inv (cleanLines text) ⟨[], ⟨none, none⟩⟩
    (by intro c2 hc2; simp at hc2) (by intro h hh; simp at hh) c hmem

/-- Witness for C10 on a concrete two-line completion text. -/
theorem C10_committed_couples_complete_witness :
    goodCouple ⟨some ("H".toList), some ("C".toList)⟩ :=
  C10_committed_couples_complete ("Header: H\nCTA: C".toList) _ (by decide)

/-- C1: for a batch over K ≥ 1 selected variants of which F fail (raise,
non-200 status, or undecodable 200 body), the loop yields exactly K−F
images and exactly F failure reports, processes every item (their counts
sum to K — no abort), and the images appear in input-selection order. -/
theorem C1_batch_counts_and_order (couples : List Couple)
    (selected : List Nat) (oracle : Nat → RemoteOutcome)
    (hK : 1 ≤ selected.length) :
    (runBatch couples selected oracle).1.length =
      selected.length -
        selected.enum.countP (fun p => failsOutcome (oracle p.1)) ∧
    (runBatch couples selected oracle).2.length =
      selected.enum.countP (fun p => failsOutcome (oracle p.1)) ∧
    (runBatch couples selected oracle).1.length +
      (runBatch couples selected oracle).2.length = selected.length ∧
    (runBatch couples selected oracle).1 =
      specOrderedImages couples selected oracle := by
  have hfold := foldl_batchStep_eq couples oracle selected.enum ([], [])
  have h1 : (runBatch couples selected oracle).1 =
      selected.enum.filterMap (imageOf couples oracle) := by
    simp only [runBatch]
    rw [hfold]
    rfl
  have h2 : (runBatch couples selected oracle).2 =
      selected.enum.filterMap (failRecordOf oracle) := by
    simp only [runBatch]
    rw [hfold]
    rfl
  have hlen1 : (runBatch couples selected oracle).1.length =
      selected.enum.countP (fun p => !failsOutcome (oracle p.1)) := by
    rw [h1, List.length_filterMap_eq_countP]
    apply List.countP_congr
    intro p _
    rw [imageOf_isSome]
  have hlen2 : (runBatch couples selected oracle).2.length =
      selected.enum.countP (fun p => failsOutcome (oracle p.1)) := by
    rw [h2, List.length_filterMap_eq_countP]
    apply List.countP_congr
    intro p _
    rw [failRecordOf_isSome]
  have hsum := countP_not_add_countP
    (fun p => failsOutcome (oracle p.1)) selected.enum
  have henlen : selected.enum.length = selected.length := List.enum_length
  refine ⟨?_, hlen2, ?_, h1⟩
  · rw [hlen1]
    omega
  · rw [hlen1, hlen2]
    omega

/-- Witness for C1: three selected couples, the second request fails with
status 500 — two images, one failure, counts summing to three, in order. -/
theorem C1_batch_counts_and_order_witness :
    1 ≤ ([0, 1, 2] : List Nat).length ∧
    (runBatch sampleCouples [0, 1, 2] sampleOracle).1.length = 2 ∧
    (runBatch sampleCouples [0, 1, 2] sampleOracle).2.length = 1 ∧
    (runBatch sampleCouples [0, 1, 2] sampleOracle).1.length +
      (runBatch sampleCouples [0, 1, 2] sampleOracle).2.length = 3 ∧
    (runBatch sampleCouples [0, 1, 2] sampleOracle).1 =
      specOrderedImages sampleCouples [0, 1, 2] sampleOracle := by
  have h := C1_batch_counts_and_order sampleCouples [0, 1, 2] sampleOracle
    (by decide)
  refine ⟨by decide, ?_, ?_, ?_, h.2.2.2⟩
  · rw [h.1]; decide
  · rw [h.2.1]; decide
  · rw [h.2.2.1]; decide

/-- C9 (spec-modelled): single-field mode splits the input into non-empty
trimmed lines and strips a leading `<digits>.` or `<digits>)` enumeration
marker from each (a line with no leading digits, or whose digit prefix is
followed by any other character, is unchanged); the spec's example input
yields `["Big Sale", "Save Now", "Clearance"]`. -/
theorem C9_single_field_mode :
    parseSingle ("1. Big Sale\n2) Save Now\nClearance".toList) =
      ["Big Sale".toList, "Save Now".toList, "Clearance".toList] ∧
    (∀ l : List Char, (l.takeWhile Char.isDigit).isEmpty = true →
      stripEnumMarker l = l) ∧
    (∀ ds r : List Char, ds ≠ [] → (∀ c ∈ ds, c.isDigit = true) →
      stripEnumMarker (ds ++ '.' :: r) = pyStrip r) ∧
    (∀ ds r : List Char, ds ≠ [] → (∀ c ∈ ds, c.isDigit = true) →
      stripEnumMarker (ds ++ ')' :: r) = pyStrip r) ∧
    (∀ (ds r : List Char) (m : Char), ds ≠ [] →
      (∀ c ∈ ds, c.isDigit = true) → m.isDigit = false →
      m ≠ '.' → m ≠ ')' →
      stripEnumMarker (ds ++ m :: r) = ds ++ m :: r) := by
  refine ⟨by decide, ?_, ?_, ?_, ?_⟩
  · intro l h
    simp [stripEnumMarker, h]
  · intro ds r hne hall
    rw [stripEnumMarker_marker ds r '.' hne hall (by decide)]
    rw [if_pos (Or.inl rfl)]
  · intro ds r hne hall
    rw [stripEnumMarker_marker ds r ')' hne hall (by decide)]
    rw [if_pos (Or.inr rfl)]
  · intro ds r m hne hall hm hm1 hm2
    rw [stripEnumMarker_marker ds r m hne hall hm]
    rw [if_neg]
    intro hor
    rcases hor with h | h
    · exact hm1 h
    · exact hm2 h

/-- Witness for C9 on the marker line `"12. Big"`. -/
theorem C9_single_field_mode_witness :
    stripEnumMarker (['1', '2'] ++ '.' :: " Big".toList) =
      pyStrip (" Big".toList) :=
  C9_single_field_mode.2.2.1 ['1', '2'] (" Big".toList)
    (by decide) (by decide)

end TemplateEditor
